import Mathlib

/-!
Shallow embedding of `idaes/commands/extensions.py` (IDAES extensions CLI).

External collaborators that live outside this module (`idaes.config`,
`idaes.commands.util.download_bin`) are passed in as parameters: the
platform catalog `base_platforms`, the extras catalog `extra_binaries`
(an insertion-ordered association list, matching Python dict iteration),
the per-file hash function, the canonicalization maps, and the outcome
of `download_binaries`.  File-system writes are modeled as the sequence
of strings passed to `fp.write`, console output as a list of events.
-/

namespace IdaesExtensions

/-- Whether a character list begins with a path separator. -/
def headIsSlash : List Char → Bool
  | [] => false
  | c :: _ => c = '/'

/-- Whether a character list ends with a path separator. -/
def lastIsSlash (l : List Char) : Bool := headIsSlash l.reverse

/-- Posix `os.path.join` for two components, as used by the module. -/
def pathJoin (a b : String) : String :=
  if headIsSlash b.data then b
  else if a = "" then b
  else if lastIsSlash a.data then a ++ b
  else a ++ "/" ++ b

/-- Concatenation of a sequence of strings written to an open file:
the resulting file content. -/
def concatAll : List String → String
  | [] => ""
  | s :: rest => s ++ concatAll rest

/-- Artifact archive name used by `_write_hash`:
`idaes-<pack>-<plat>.tar.gz`. -/
def artifactFileName (pack plat : String) : String :=
  "idaes-" ++ pack ++ "-" ++ plat ++ ".tar.gz"

/-- Path handed to `hash_file_sha256` by `_write_hash`: joined with the
release directory when a path is given. -/
def artifactPath (path : Option String) (pack plat : String) : String :=
  match path with
  | some p => pathJoin p (artifactFileName pack plat)
  | none => artifactFileName pack plat

/-- The inner helper `_write_hash(fp, pack, plat)`: the four strings it
writes to the open manifest file, in order (`h`, two spaces, the
artifact file name, a newline). -/
def write_hash (hashFn : String → String) (path : Option String)
    (pack plat : String) : List String :=
  let f := artifactFileName pack plat
  let h := hashFn (artifactPath path pack plat)
  [h, "  ", f, "\n"]

/-- The sequence of strings `hash_extensions` writes to the manifest
file: the first loop runs over `base_platforms` with the inner loop over
`["solvers", "lib"]`; the second loop runs over `base_platforms` again,
iterating `extra_binaries.items()` and skipping (`continue`) any extra
whose supported-platform collection does not contain the platform. -/
def hash_extensions_writes (hashFn : String → String)
    (base_platforms : List String)
    (extra_binaries : List (String × List String))
    (path : Option String) : List String :=
  (base_platforms.flatMap fun plat =>
    (["solvers", "lib"]).flatMap fun pack => write_hash hashFn path pack plat) ++
  (base_platforms.flatMap fun plat =>
    extra_binaries.flatMap fun pr =>
      if plat ∈ pr.2 then write_hash hashFn path pr.1 plat else [])

/-- The `hash_extensions` command: returns the manifest file name
(`sha256sum_<release>.txt`, joined under `path` when a path is given)
and the manifest file content (the concatenation of all writes). -/
def hash_extensions (hashFn : String → String)
    (base_platforms : List String)
    (extra_binaries : List (String × List String))
    (release : String) (path : Option String) : String × String :=
  let hfile := "sha256sum_" ++ release ++ ".txt"
  let hfile := match path with
    | some p => pathJoin p hfile
    | none => hfile
  (hfile, concatAll (hash_extensions_writes hashFn base_platforms extra_binaries path))

/-- One full manifest line for a (pack, platform) artifact. -/
def manifestLine (hashFn : String → String) (path : Option String)
    (pack plat : String) : String :=
  hashFn (artifactPath path pack plat) ++ "  " ++ artifactFileName pack plat ++ "\n"

/-- The (pack, platform) pairs of the base section of the manifest:
every platform, with kinds `solvers` then `lib`. -/
def baseEntries (base_platforms : List String) : List (String × String) :=
  base_platforms.flatMap fun plat => [("solvers", plat), ("lib", plat)]

/-- The (pack, platform) pairs of the extras section of the manifest:
every platform again, with exactly the named extras declared for it, in
catalog order. -/
def extraEntries (base_platforms : List String)
    (extra_binaries : List (String × List String)) : List (String × String) :=
  base_platforms.flatMap fun plat =>
    (extra_binaries.filter fun pr => plat ∈ pr.2).map fun pr => (pr.1, plat)

/-- The manifest lines in write order. -/
def manifestLineList (hashFn : String → String) (base_platforms : List String)
    (extra_binaries : List (String × List String))
    (path : Option String) : List String :=
  (baseEntries base_platforms ++ extraEntries base_platforms extra_binaries).map
    fun pr => manifestLine hashFn path pr.1 pr.2

/-- Console/side-effect events of the `get-extensions` command body. -/
inductive Event where
  | echo (s : String)
  | buildInfo
  | download (release url : Option String) (insecure : Bool) (cacert : Option String)
      (verbose : Bool) (distro : String)
      (nochecksum library_only no_download extras_only : Bool)
      (extra : List String) (alt_path : Option String)
  | printVersion (library_only : Bool) (bin_directory : Option String)
deriving DecidableEq, Repr

/-- The click options of `get-extensions`, with the field order of the
option declarations. -/
structure GetExtArgs where
  release : Option String
  url : Option String
  insecure : Bool
  cacert : Option String
  verbose : Bool
  distro : String
  nochecksum : Bool
  library_only : Bool
  no_download : Bool
  info : Bool
  extras_only : Bool
  extra : List String
  «to» : Option String
deriving DecidableEq, Repr

/-- Outcome of the `download_binaries` collaborator: the returned dict
(as an ordered association list), or a raised `UnsupportedPlatformError`
carrying its message. -/
inductive DownloadOutcome where
  | ok (d : List (String × String))
  | unsupportedPlatform (msg : String)
deriving DecidableEq, Repr

/-- The `cmd_name` local of `get_extensions`. -/
def cmd_name : String := "idaes get-extensions"

/-- Python format field of width 14: left-justified, space padded. -/
def pad14 (s : String) : String :=
  s ++ String.mk (List.replicate (14 - s.length) ' ')

/-- The guidance echoed when `download_binaries` raises
`UnsupportedPlatformError` (two adjacent f-strings in the source). -/
def unsupported_guidance : String :=
  "Use the command \x27" ++ cmd_name ++ " --distro <os>\x27 to specify an OS distribution\n" ++
    ("Use the command \x27" ++ cmd_name ++ " --info\x27 to see supported platforms")

/-- The local `release` after the default-substitution step: the
configured default release is used only when neither a release nor a
url was given. -/
def effectiveRelease (default_binary_release : Option String)
    (a : GetExtArgs) : Option String :=
  if a.url.isNone && a.release.isNone then default_binary_release else a.release

/-- Whether control reaches the `download_binaries` call: info unset,
not the both-given conflict branch, and at least one source present
after default substitution. -/
def attemptsDownload (default_binary_release : Option String)
    (a : GetExtArgs) : Bool :=
  !a.info && !(a.url.isSome && (effectiveRelease default_binary_release a).isSome) &&
    (a.url.isSome || (effectiveRelease default_binary_release a).isSome)

/-- The `get_extensions` command body as the list of events it performs,
given the configured default release and the outcome `download_binaries`
would produce if called. -/
def get_extensions (default_binary_release : Option String)
    (dl : DownloadOutcome) (a : GetExtArgs) : List Event :=
  if a.info then [Event.buildInfo]
  else
    let release := effectiveRelease default_binary_release a
    if a.url.isSome && release.isSome then
      [Event.echo "\n* You must provide either a release or url not both."]
    else if a.url.isSome || release.isSome then
      Event.echo "Getting files..." ::
      Event.download release a.url a.insecure a.cacert a.verbose a.distro a.nochecksum
          a.library_only a.no_download a.extras_only a.extra a.«to» ::
      (match dl with
       | DownloadOutcome.unsupportedPlatform msg =>
           [Event.echo "", Event.echo msg, Event.echo "",
            Event.echo unsupported_guidance]
       | DownloadOutcome.ok d =>
           Event.echo "Done" ::
           (if a.no_download then
             d.map fun ki => Event.echo (pad14 ki.1 ++ ": " ++ ki.2)
           else
             [Event.printVersion a.library_only a.«to»]))
    else
      [Event.echo "\n* You must provide a download URL for IDAES binary files."]

/-- Whether an event is a call to `download_binaries`. -/
def isDownloadEvent : Event → Bool
  | Event.download .. => true
  | _ => false

/-- The 65-character dash rule of `print_header`. -/
def headerRule : String := String.mk (List.replicate 65 '-')

/-- The 65-character rule closing `print_header` and `print_footer`. -/
def footerRule : String := String.mk (List.replicate 65 '=')

/-- `print_header(title)`: the three echoed lines. -/
def print_header (title : String) : List String :=
  [headerRule, "IDAES Extensions " ++ title, footerRule]

/-- `print_footer()`: the two echoed lines. -/
def print_footer : List String := ["", footerRule]

/-- First line of a file, stripped, as in `f.readline().strip()`; the
file system is a partial map from path to the list of lines, and `none`
models `FileNotFoundError`. -/
def readFirstLine (fs : String → Option (List String)) (p : String) : Option String :=
  (fs p).map fun lines => (lines.headD "").trim

/-- The directory `print_extensions_version` reads from:
`idaes.bin_directory` when no directory was passed. -/
def effectiveBinDir (idaes_bin_directory : String) : Option String → String
  | none => idaes_bin_directory
  | some d => d

/-- `print_extensions_version`: the echoed lines and the return value,
over the file-system map and the configured `idaes.bin_directory`. -/
def print_extensions_version (fs : String → Option (List String))
    (idaes_bin_directory : String) (library_only : Bool)
    (bin_directory : Option String) : List String × Nat :=
  let binDir := effectiveBinDir idaes_bin_directory bin_directory
  let solversOut :=
    if library_only then []
    else
      let v := match readFirstLine fs (pathJoin binDir "version_solvers.txt") with
        | some s => s
        | none => "no version file found"
      ["Solvers:  v" ++ v]
  let v := match readFirstLine fs (pathJoin binDir "version_lib.txt") with
    | some s => s
    | none => "no version file found"
  (print_header "Build Versions" ++ solversOut ++ ["Library:  v" ++ v] ++ print_footer, 0)

/-- `print_license`: the echoed lines and the return value, over the
file-system map and the configured `idaes.bin_directory`. -/
def print_license (fs : String → Option (List String))
    (idaes_bin_directory : String) : List String × Nat :=
  let body := match fs (pathJoin idaes_bin_directory "license.txt") with
    | some lines => lines.map String.trim
    | none => ["no license file found"]
  (print_header "License Information" ++ body ++ [""] ++ print_footer, 0)

/-- The "Current system information" section of `print_build_info`,
over the canonicalization maps of `idaes.config` and the platform
catalog, for the detected raw `platform` and `arch` strings. -/
def build_info_current (canonical_distro canonical_arch : String → String)
    (base_platforms : List String) (platform arch : String) : List String :=
  let to_platform := canonical_distro platform
  let to_mach := canonical_arch arch
  let to_build := to_platform ++ "-" ++ to_mach
  let has_build := base_platforms.contains to_build
  let alias1 := if to_platform = platform then "" else " -> " ++ to_platform
  let alias2 := if to_mach = arch then "" else " -> " ++ to_mach
  ["\nCurrent system information:",
   "       Platform: " ++ platform ++ alias1,
   "   Architecture: " ++ arch ++ alias2,
   if has_build then "      Use build: " ++ to_build
   else "   !! Unsupported platform/architecture combination"]

/-- Outcome of running a command body under Python local-variable
semantics: the echoed lines, or an unhandled `NameError` from reading a
local variable before any assignment to it. -/
inductive PyResult where
  | ok (lines : List String)
  | nameError
deriving DecidableEq, Repr

/-- The `except UnsupportedPlatformError` handler of `bin_platform`: it
reads the local `platform`, which is unassigned (`none`) when the
exception was raised before the assignment to `platform`. -/
def bin_platform_handler : Option String → PyResult
  | some platform => PyResult.ok
      ["No supported binaries found for " ++ platform ++
        ". Use the command \x27idaes get-extensions --info\x27 to see supported platforms"]
  | none => PyResult.nameError

/-- The `bin-platform` command over the outcomes of its collaborators
`_get_arch_and_platform` and `_get_release_platform` (`Except.error`
models a raised `UnsupportedPlatformError`): the local `platform` is
assigned only once the first call has returned. -/
def bin_platform (gap : Except String (String × String))
    (grp : String → Except String String) : PyResult :=
  match gap with
  | Except.error _ => bin_platform_handler none
  | Except.ok ap =>
    match grp ap.2 with
    | Except.ok line => PyResult.ok [line]
    | Except.error _ => bin_platform_handler (some ap.2)

/-- Arguments of `get-extensions` with every option at its default. -/
def defaultArgs : GetExtArgs :=
  ⟨none, none, false, none, false, "auto", false, false, false, false, false, [], none⟩

end IdaesExtensions

namespace IdaesExtensions

lemma concatAll_nil : concatAll [] = "" := rfl

lemma concatAll_cons (s : String) (l : List String) :
    concatAll (s :: l) = s ++ concatAll l := rfl

lemma concatAll_append (a b : List String) :
    concatAll (a ++ b) = concatAll a ++ concatAll b := by
  induction a with
  | nil => simp [concatAll]
  | cons s rest ih => simp [concatAll, ih, String.append_assoc]

lemma concatAll_bind {α : Type} (l : List α) (f : α → List String) :
    concatAll (l.flatMap f) = concatAll (l.map fun x => concatAll (f x)) := by
  induction l with
  | nil => simp [concatAll]
  | cons x rest ih => simp [List.flatMap_cons, concatAll, concatAll_append, ih]

lemma concatAll_write_hash (hashFn : String → String) (path : Option String)
    (pack plat : String) :
    concatAll (write_hash hashFn path pack plat) = manifestLine hashFn path pack plat := by
  simp [write_hash, manifestLine, concatAll, String.append_assoc]

lemma writes_eq_join_lines (hashFn : String → String) (bp : List String)
    (eb : List (String × List String)) (path : Option String) :
    concatAll (hash_extensions_writes hashFn bp eb path) =
      concatAll ((baseEntries bp ++ extraEntries bp eb).map
        fun pr => manifestLine hashFn path pr.1 pr.2) := by
  rw [hash_extensions_writes, concatAll_append, List.map_append, concatAll_append]
  congr 1
  · rw [concatAll_bind, baseEntries]
    rw [List.map_flatMap, concatAll_bind]
    congr 1
    apply List.map_congr_left
    intro plat _
    simp [concatAll_append, concatAll, write_hash, manifestLine, String.append_assoc]
  · rw [concatAll_bind, extraEntries]
    rw [List.map_flatMap, concatAll_bind]
    congr 1
    apply List.map_congr_left
    intro plat _
    induction eb with
    | nil => simp [concatAll]
    | cons pr rest ih =>
      by_cases h : plat ∈ pr.2
      · rw [List.flatMap_cons, if_pos h, concatAll_append, concatAll_write_hash,
          List.filter_cons_of_pos (by simpa using h), List.map_cons, List.map_cons,
          concatAll_cons, ih]
      · rw [List.flatMap_cons, if_neg h, List.filter_cons_of_neg (by simpa using h)]
        simpa using ih

/-- C1: `hash_extensions` writes the checksum manifest by first
iterating every platform of the base catalog, writing one line per base
package kind (solvers, then lib), and only afterwards iterating every
platform again, writing one line for each named extra declared for that
platform, extras not declared being skipped: the file content is
exactly the concatenation of the lines of `baseEntries` followed by
those of `extraEntries`, with no other traversal order. -/
theorem hash_extensions_traversal_order (hashFn : String → String)
    (bp : List String) (eb : List (String × List String))
    (release : String) (path : Option String) :
    (hash_extensions hashFn bp eb release path).2 =
      concatAll ((baseEntries bp ++ extraEntries bp eb).map
        fun pr => manifestLine hashFn path pr.1 pr.2) :=
  writes_eq_join_lines hashFn bp eb path

/-- C5: every manifest line is exactly the artifact hash, two spaces,
the artifact file name `idaes-<pack>-<plat>.tar.gz` for that entry, and
a newline; the manifest file is `sha256sum_<release>.txt` under the
given path. -/
theorem hash_extensions_line_format (hashFn : String → String)
    (bp : List String) (eb : List (String × List String))
    (release p : String) :
    (hash_extensions hashFn bp eb release (some p)).1 =
      pathJoin p ("sha256sum_" ++ release ++ ".txt") ∧
    (hash_extensions hashFn bp eb release (some p)).2 =
      concatAll (manifestLineList hashFn bp eb (some p)) ∧
    ∀ l ∈ manifestLineList hashFn bp eb (some p), ∃ pack plat,
      l = hashFn (pathJoin p ("idaes-" ++ pack ++ "-" ++ plat ++ ".tar.gz")) ++ "  " ++
            ("idaes-" ++ pack ++ "-" ++ plat ++ ".tar.gz") ++ "\n" := by
  refine ⟨rfl, writes_eq_join_lines hashFn bp eb (some p), ?_⟩
  intro l hl
  rw [manifestLineList] at hl
  obtain ⟨pr, hpr, rfl⟩ := List.mem_map.mp hl
  exact ⟨pr.1, pr.2, rfl⟩

/-- Witness for C5 at a one-platform catalog. -/
theorem hash_extensions_line_format_witness :
    ∃ pack plat,
      manifestLine (fun _ => "HH") (some "d") "solvers" "p0" =
        "HH" ++ "  " ++ ("idaes-" ++ pack ++ "-" ++ plat ++ ".tar.gz") ++ "\n" :=
  (hash_extensions_line_format (fun _ => "HH") ["p0"] [] "r" "d").2.2
    (manifestLine (fun _ => "HH") (some "d") "solvers" "p0") (by decide)

/-- C8: the manifest output of `hash_extensions` depends only on the
release tag, the path, the platform and extras catalogs, and the
per-artifact hash results: two runs whose hash functions agree on every
artifact of the traversal produce byte-identical file name and file
content. -/
theorem hash_extensions_deterministic (hf1 hf2 : String → String)
    (bp : List String) (eb : List (String × List String))
    (release : String) (path : Option String)
    (hagree : ∀ pr ∈ baseEntries bp ++ extraEntries bp eb,
      hf1 (artifactPath path pr.1 pr.2) = hf2 (artifactPath path pr.1 pr.2)) :
    hash_extensions hf1 bp eb release path = hash_extensions hf2 bp eb release path := by
  have hc : concatAll (hash_extensions_writes hf1 bp eb path) =
      concatAll (hash_extensions_writes hf2 bp eb path) := by
    rw [writes_eq_join_lines, writes_eq_join_lines]
    congr 1
    apply List.map_congr_left
    intro pr hpr
    rw [manifestLine, manifestLine, hagree pr hpr]
  exact Prod.ext rfl hc

/-- Witness for C8: two distinct hash functions agreeing on the
artifacts of a one-platform, one-extra catalog. -/
theorem hash_extensions_deterministic_witness :
    hash_extensions (fun _ => "A") ["p0"] [("ex", ["p0"])] "r" (some "d") =
      hash_extensions (fun s => if s = "zzz" then "B" else "A")
        ["p0"] [("ex", ["p0"])] "r" (some "d") :=
  hash_extensions_deterministic _ _ _ _ _ _ (by decide)

end IdaesExtensions

namespace IdaesExtensions

/-- C10: with the info flag set, `get_extensions` prints build
information and returns immediately: no default-release substitution,
no release/url conflict check, no download and no version reporting,
whatever the other options and the download outcome. -/
theorem get_extensions_info_short_circuit (default_binary_release : Option String)
    (dl : DownloadOutcome) (a : GetExtArgs) (h : a.info = true) :
    get_extensions default_binary_release dl a = [Event.buildInfo] := by
  simp [get_extensions, h]

/-- Witness for C10: info set together with a release, a url and every
other option populated. -/
theorem get_extensions_info_short_circuit_witness :
    get_extensions (some "3.4.2") (DownloadOutcome.ok [])
      ⟨some "2.0", some "https://example.com/x.tar.gz", true, some "ca.pem", true,
        "ubuntu2204", true, true, true, true, true, ["petsc"], some "/tmp/bin"⟩ =
      [Event.buildInfo] :=
  get_extensions_info_short_circuit _ _ _ rfl

/-- C2: with both a release and a url given (and info unset),
`get_extensions` only echoes the conflict message and returns:
`download_binaries` is never called and no exception escapes (the
event list is exactly the one echo). -/
theorem get_extensions_conflict_soft (default_binary_release : Option String)
    (dl : DownloadOutcome) (a : GetExtArgs) (u r : String)
    (hi : a.info = false) (hu : a.url = some u) (hr : a.release = some r) :
    get_extensions default_binary_release dl a =
      [Event.echo "\n* You must provide either a release or url not both."] ∧
    ∀ e ∈ get_extensions default_binary_release dl a, isDownloadEvent e = false := by
  have hmain : get_extensions default_binary_release dl a =
      [Event.echo "\n* You must provide either a release or url not both."] := by
    simp [get_extensions, effectiveRelease, hi, hu, hr]
  refine ⟨hmain, ?_⟩
  rw [hmain]
  intro e he
  rw [List.mem_singleton] at he
  subst he
  rfl

/-- Witness for C2 at a concrete release and url. -/
theorem get_extensions_conflict_soft_witness :
    get_extensions (some "3.4.2") (DownloadOutcome.ok [])
      ⟨some "3.4.1", some "https://example.com/x.tar.gz", false, none, false, "auto",
        false, false, false, false, false, [], none⟩ =
      [Event.echo "\n* You must provide either a release or url not both."] ∧
    ∀ e ∈ get_extensions (some "3.4.2") (DownloadOutcome.ok [])
      ⟨some "3.4.1", some "https://example.com/x.tar.gz", false, none, false, "auto",
        false, false, false, false, false, [], none⟩, isDownloadEvent e = false :=
  get_extensions_conflict_soft (some "3.4.2") (DownloadOutcome.ok []) _
    "https://example.com/x.tar.gz" "3.4.1" rfl rfl rfl

/-- C3 as stated is false on the code: with neither a release nor a url
supplied and info unset, the default binary release is substituted and
the download proceeds; no user-error message is echoed. -/
theorem get_extensions_neither_counterexample :
    (Event.download (some "3.4.2") none false none false "auto"
        false false false false [] none)
      ∈ get_extensions (some "3.4.2") (DownloadOutcome.ok []) defaultArgs ∧
    ∀ e ∈ get_extensions (some "3.4.2") (DownloadOutcome.ok []) defaultArgs,
      e ≠ Event.echo "\n* You must provide a download URL for IDAES binary files." := by
  decide

/-- C3 (amended): with neither release nor url supplied and info unset,
the configured default release is substituted; the user-error message is
echoed (and no download performed) exactly when that default is itself
absent, and otherwise the download proceeds with the default release. -/
theorem get_extensions_neither_amended (default_binary_release : Option String)
    (dl : DownloadOutcome) (a : GetExtArgs)
    (hi : a.info = false) (hu : a.url = none) (hr : a.release = none) :
    (default_binary_release = none →
      get_extensions default_binary_release dl a =
        [Event.echo "\n* You must provide a download URL for IDAES binary files."]) ∧
    (∀ r, default_binary_release = some r →
      ∃ rest, get_extensions default_binary_release dl a =
        Event.echo "Getting files..." ::
        Event.download (some r) none a.insecure a.cacert a.verbose a.distro a.nochecksum
          a.library_only a.no_download a.extras_only a.extra a.«to» :: rest) := by
  constructor
  · intro hd
    subst hd
    simp [get_extensions, effectiveRelease, hi, hu, hr]
  · intro r hd
    subst hd
    refine ⟨(match dl with
      | DownloadOutcome.unsupportedPlatform msg =>
          [Event.echo "", Event.echo msg, Event.echo "", Event.echo unsupported_guidance]
      | DownloadOutcome.ok d =>
          Event.echo "Done" ::
          (if a.no_download then d.map fun ki => Event.echo (pad14 ki.1 ++ ": " ++ ki.2)
           else [Event.printVersion a.library_only a.«to»])), ?_⟩
    simp [get_extensions, effectiveRelease, hi, hu, hr]

/-- Witness for the amended C3: a present default release leads to a
download with that release. -/
theorem get_extensions_neither_amended_witness :
    ∃ rest, get_extensions (some "3.4.2") (DownloadOutcome.ok []) defaultArgs =
      Event.echo "Getting files..." ::
      Event.download (some "3.4.2") none false none false "auto"
        false false false false [] none :: rest :=
  (get_extensions_neither_amended (some "3.4.2") (DownloadOutcome.ok [])
    defaultArgs rfl rfl rfl).2 "3.4.2" rfl

/-- C4: when `download_binaries` raises `UnsupportedPlatformError`,
`get_extensions` catches it (the run completes normally), echoes the
exception message, and echoes guidance naming both the
`--distro <os>` override command and the `--info` command, then
returns. -/
theorem get_extensions_unsupported_guidance (default_binary_release : Option String)
    (a : GetExtArgs) (msg : String)
    (h : attemptsDownload default_binary_release a = true) :
    get_extensions default_binary_release (DownloadOutcome.unsupportedPlatform msg) a =
      [Event.echo "Getting files...",
       Event.download (effectiveRelease default_binary_release a) a.url a.insecure a.cacert
         a.verbose a.distro a.nochecksum a.library_only a.no_download a.extras_only
         a.extra a.«to»,
       Event.echo "", Event.echo msg, Event.echo "", Event.echo unsupported_guidance] ∧
    (∃ s t, unsupported_guidance = s ++ (cmd_name ++ " --distro <os>") ++ t) ∧
    (∃ s t, unsupported_guidance = s ++ (cmd_name ++ " --info") ++ t) := by
  rw [attemptsDownload] at h
  simp only [Bool.and_eq_true, Bool.not_eq_true', Bool.or_eq_true] at h
  obtain ⟨⟨hinfo, hc1⟩, hc2⟩ := h
  refine ⟨?_, ?_, ?_⟩
  · rw [get_extensions]
    rw [if_neg (by simp [hinfo])]
    simp only [hc1, Bool.false_eq_true, if_false]
    rw [if_pos (by simpa using hc2)]
  · exact ⟨"Use the command \x27",
      "\x27 to specify an OS distribution\nUse the command \x27idaes get-extensions --info\x27 to see supported platforms",
      by decide⟩
  · exact ⟨"Use the command \x27idaes get-extensions --distro <os>\x27 to specify an OS distribution\nUse the command \x27",
      "\x27 to see supported platforms", by decide⟩

/-- Witness for C4: a release-only invocation on an unsupported
platform. -/
theorem get_extensions_unsupported_guidance_witness :
    get_extensions none
      (DownloadOutcome.unsupportedPlatform "unable to identify platform")
      ⟨some "3.4.2", none, false, none, false, "auto",
        false, false, false, false, false, [], none⟩ =
      [Event.echo "Getting files...",
       Event.download (some "3.4.2") none false none false "auto"
         false false false false [] none,
       Event.echo "", Event.echo "unable to identify platform", Event.echo "",
       Event.echo unsupported_guidance] ∧
    (∃ s t, unsupported_guidance = s ++ (cmd_name ++ " --distro <os>") ++ t) ∧
    (∃ s t, unsupported_guidance = s ++ (cmd_name ++ " --info") ++ t) :=
  get_extensions_unsupported_guidance none
    ⟨some "3.4.2", none, false, none, false, "auto",
      false, false, false, false, false, [], none⟩
    "unable to identify platform" (by decide)

/-- C6: a missing version or license file is not an error: each absent
version file yields the `no version file found` placeholder entry, an
absent license file yields the `no license file found` line, and both
commands complete normally returning 0. -/
theorem metadata_absence_not_fatal (fs : String → Option (List String))
    (root : String) (lo : Bool) (bd : Option String)
    (h1 : fs (pathJoin (effectiveBinDir root bd) "version_solvers.txt") = none)
    (h2 : fs (pathJoin (effectiveBinDir root bd) "version_lib.txt") = none)
    (h3 : fs (pathJoin root "license.txt") = none) :
    (print_extensions_version fs root lo bd).1 =
      print_header "Build Versions" ++
        (if lo then [] else ["Solvers:  v" ++ "no version file found"]) ++
        ["Library:  v" ++ "no version file found"] ++ print_footer ∧
    (print_extensions_version fs root lo bd).2 = 0 ∧
    (print_license fs root).1 =
      print_header "License Information" ++
        ["no license file found", ""] ++ print_footer ∧
    (print_license fs root).2 = 0 := by
  refine ⟨?_, rfl, ?_, rfl⟩
  · simp [print_extensions_version, readFirstLine, h1, h2]
    cases lo <;> simp <;> decide
  · simp [print_license, h3]

/-- Witness for C6 on an empty file system. -/
theorem metadata_absence_not_fatal_witness :
    (print_extensions_version (fun _ => none) "bin" false none).1 =
      print_header "Build Versions" ++
        ["Solvers:  v" ++ "no version file found"] ++
        ["Library:  v" ++ "no version file found"] ++ print_footer ∧
    (print_extensions_version (fun _ => none) "bin" false none).2 = 0 ∧
    (print_license (fun _ => none) "bin").1 =
      print_header "License Information" ++
        ["no license file found", ""] ++ print_footer ∧
    (print_license (fun _ => none) "bin").2 = 0 :=
  metadata_absence_not_fatal (fun _ => none) "bin" false none rfl rfl rfl

/-- C7: `print_build_info` forms the build identifier by joining the
canonicalized distro and architecture with `-`; the final line reports
`Use build: <id>` exactly when that identifier is in the supported
catalog and the unsupported message otherwise, and each component line
shows an ` -> <canonical>` arrow exactly when canonicalization changed
that raw string. -/
theorem print_build_info_resolution (canonical_distro canonical_arch : String → String)
    (base_platforms : List String) (platform arch : String) :
    (build_info_current canonical_distro canonical_arch base_platforms platform arch)[3]? =
      some (if (canonical_distro platform ++ "-" ++ canonical_arch arch) ∈ base_platforms
        then "      Use build: " ++ (canonical_distro platform ++ "-" ++ canonical_arch arch)
        else "   !! Unsupported platform/architecture combination") ∧
    (build_info_current canonical_distro canonical_arch base_platforms platform arch)[1]? =
      some ("       Platform: " ++ platform ++
        (if canonical_distro platform = platform then ""
         else " -> " ++ canonical_distro platform)) ∧
    (build_info_current canonical_distro canonical_arch base_platforms platform arch)[2]? =
      some ("   Architecture: " ++ arch ++
        (if canonical_arch arch = arch then "" else " -> " ++ canonical_arch arch)) := by
  refine ⟨?_, rfl, rfl⟩
  by_cases hmem : (canonical_distro platform ++ "-" ++ canonical_arch arch) ∈ base_platforms
  · simp [build_info_current, List.contains, hmem]
  · simp [build_info_current, List.contains, hmem]

/-- C9: in `bin_platform`, if `_get_arch_and_platform` itself raises
`UnsupportedPlatformError`, the handler reads the local `platform`
before any assignment (a NameError), so its fallback message cannot be
produced there; the fallback message is produced exactly when the
exception comes from `_get_release_platform`, after `platform` was
assigned. -/
theorem bin_platform_unbound_local (gap : Except String (String × String))
    (grp : String → Except String String) :
    (∀ e, gap = Except.error e → bin_platform gap grp = PyResult.nameError) ∧
    (∀ a p e, gap = Except.ok (a, p) → grp p = Except.error e →
      bin_platform gap grp = PyResult.ok
        ["No supported binaries found for " ++ p ++
          ". Use the command \x27idaes get-extensions --info\x27 to see supported platforms"]) := by
  constructor
  · intro e he
    subst he
    rfl
  · intro a p e hg hr
    subst hg
    simp [bin_platform, hr, bin_platform_handler]

/-- Witness for C9: the first collaborator raising yields the NameError
outcome; the second raising yields the fallback message. -/
theorem bin_platform_unbound_local_witness :
    bin_platform (Except.error "unable to identify platform")
      (fun p => Except.ok p) = PyResult.nameError ∧
    bin_platform (Except.ok ("x86_64", "linux"))
      (fun _ => Except.error "no match") =
      PyResult.ok
        ["No supported binaries found for " ++ "linux" ++
          ". Use the command \x27idaes get-extensions --info\x27 to see supported platforms"] :=
  ⟨(bin_platform_unbound_local _ _).1 "unable to identify platform" rfl,
   (bin_platform_unbound_local _ _).2 "x86_64" "linux" "no match" rfl rfl⟩

end IdaesExtensions
